import Mathlib

/-!
Verification development for the client-side session/identity/event bookkeeping
layer of the aepNativeReact application.

The TypeScript sources are shallowly embedded:
  - pure functions become Lean functions;
  - reads of the environment (clock, PRNG, device metrics) become explicit
    oracle parameters;
  - AsyncStorage-backed stateful hooks become explicit state-passing functions;
  - JavaScript truthiness on optional strings/numbers is modelled by the
    jsTruthy/jsOr* helpers;
  - the external SHA-256 digest (expo-crypto) is modelled by a full FIPS 180-4
    implementation over the byte encoding of the string.
-/

-- ===========================================================================
-- JavaScript semantics helpers
-- ===========================================================================

/-- Truthiness of an optional JS string: defined and non-empty. -/
def jsTruthy : Option String → Bool
  | none => false
  | some s => !(s == "")

/-- Model of the JS idiom `v || d` for an optional string `v`. -/
def jsOrStr : Option String → String → String
  | none, d => d
  | some s, d => if s == "" then d else s

/-- Model of the JS idiom `v || d` for an optional number (rational). -/
def jsOrRat : Option Rat → Rat → Rat
  | none, d => d
  | some x, d => if x == 0 then d else x

/-- Model of the JS idiom `v || d` for an optional natural number. -/
def jsOrNat : Option Nat → Nat → Nat
  | none, d => d
  | some n, d => if n == 0 then d else n

/-- Whitespace as stripped by `String.prototype.trim` (common ASCII cases). -/
def isJsWhitespace (c : Char) : Bool :=
  c.toNat == 32 || c.toNat == 9 || c.toNat == 10 || c.toNat == 13

/-- Drop leading and trailing whitespace from a character list. -/
def trimChars (l : List Char) : List Char :=
  ((l.dropWhile isJsWhitespace).reverse.dropWhile isJsWhitespace).reverse

/-- Model of `String.prototype.trim`. -/
def jsTrim (s : String) : String := ⟨trimChars s.data⟩

/-- Model of `String.prototype.toLowerCase` on one character (ASCII range). -/
def jsToLowerChar (c : Char) : Char :=
  if 65 ≤ c.toNat ∧ c.toNat ≤ 90 then Char.ofNat (c.toNat + 32) else c

/-- Model of `String.prototype.toLowerCase`. -/
def jsToLower (s : String) : String := ⟨s.data.map jsToLowerChar⟩

/-- Model of `String.prototype.includes`: substring containment. -/
def jsIncludes (s sub : String) : Bool :=
  s.data.tails.any (fun t => sub.data.isPrefixOf t)

-- ===========================================================================
-- SHA-256 (model of the external expo-crypto digest, FIPS 180-4)
-- ===========================================================================

/-- Two to the thirty-second power, the word modulus of SHA-256. -/
def M32 : Nat := 4294967296

/-- Right rotation of a 32-bit word. -/
def rotr32 (x n : Nat) : Nat := ((x >>> n) ||| (x <<< (32 - n))) % M32

/-- Bitwise complement of a 32-bit word. -/
def not32 (x : Nat) : Nat := x ^^^ 4294967295

/-- SHA-256 choice function. -/
def shaCh (x y z : Nat) : Nat := Nat.xor (Nat.land x y) (Nat.land (not32 x) z)

/-- SHA-256 majority function. -/
def shaMaj (x y z : Nat) : Nat :=
  Nat.xor (Nat.xor (Nat.land x y) (Nat.land x z)) (Nat.land y z)

/-- Three-way xor of rotations, the common shape of the sigma functions. -/
def xorRots (x r1 r2 last : Nat) : Nat :=
  Nat.xor (Nat.xor (rotr32 x r1) (rotr32 x r2)) last

/-- SHA-256 big sigma 0 (rotations by 2, 13, 22). -/
def bsig0 (x : Nat) : Nat := xorRots x 2 13 (rotr32 x 22)

/-- SHA-256 big sigma 1 (rotations by 6, 11, 25). -/
def bsig1 (x : Nat) : Nat := xorRots x 6 11 (rotr32 x 25)

/-- SHA-256 small sigma 0 (rotations by 7, 18 and a shift by 3). -/
def ssig0 (x : Nat) : Nat := xorRots x 7 18 (x >>> 3)

/-- SHA-256 small sigma 1 (rotations by 17, 19 and a shift by 10). -/
def ssig1 (x : Nat) : Nat := xorRots x 17 19 (x >>> 10)

/-- The 64 SHA-256 round constants, written in decimal. -/
def K256 : List Nat :=
  [1116352408, 1899447441, 3049323471, 3921009573,
   961987163, 1508970993, 2453635748, 2870763221,
   3624381080, 310598401, 607225278, 1426881987,
   1925078388, 2162078206, 2614888103, 3248222580,
   3835390401, 4022224774, 264347078, 604807628,
   770255983, 1249150122, 1555081692, 1996064986,
   2554220882, 2821834349, 2952996808, 3210313671,
   3336571891, 3584528711, 113926993, 338241895,
   666307205, 773529912, 1294757372, 1396182291,
   1695183700, 1986661051, 2177026350, 2456956037,
   2730485921, 2820302411, 3259730800, 3345764771,
   3516065817, 3600352804, 4094571909, 275423344,
   430227734, 506948616, 659060556, 883997877,
   958139571, 1322822218, 1537002063, 1747873779,
   1955562222, 2024104815, 2227730452, 2361852424,
   2428436474, 2756734187, 3204031479, 3329325298]

/-- The eight working registers of SHA-256. -/
structure Sha256Regs where
  a : Nat
  b : Nat
  c : Nat
  d : Nat
  e : Nat
  f : Nat
  g : Nat
  h : Nat
deriving DecidableEq

/-- Initial hash value of SHA-256, written in decimal. -/
def sha256Init : Sha256Regs :=
  ⟨1779033703, 3144134277, 1013904242, 2773480762,
   1359893119, 2600822924, 528734635, 1541459225⟩

/-- One SHA-256 round, consuming the already-summed constant and word. -/
def sha256Round (st : Sha256Regs) (kw : Nat) : Sha256Regs :=
  let t1 := (st.h + bsig1 st.e + shaCh st.e st.f st.g + kw) % M32
  let t2 := (bsig0 st.a + shaMaj st.a st.b st.c) % M32
  ⟨(t1 + t2) % M32, st.a, st.b, st.c, (st.d + t1) % M32, st.e, st.f, st.g⟩

/-- Extend a message schedule by the given number of additional words. -/
def extendSchedule : List Nat → Nat → List Nat
  | ws, 0 => ws
  | ws, Nat.succ k =>
    let n := ws.length
    let x := (ssig1 (ws.getD (n - 2) 0) + ws.getD (n - 7) 0 +
              ssig0 (ws.getD (n - 15) 0) + ws.getD (n - 16) 0) % M32
    extendSchedule (ws ++ [x]) k

/-- Compression of one 16-word block into the running registers. -/
def sha256Compress (regs : Sha256Regs) (block : List Nat) : Sha256Regs :=
  let w := extendSchedule block 48
  let st := (K256.zip w).foldl (fun st p => sha256Round st ((p.1 + p.2) % M32)) regs
  ⟨(regs.a + st.a) % M32, (regs.b + st.b) % M32, (regs.c + st.c) % M32,
   (regs.d + st.d) % M32, (regs.e + st.e) % M32, (regs.f + st.f) % M32,
   (regs.g + st.g) % M32, (regs.h + st.h) % M32⟩

/-- Pack big-endian bytes into 32-bit words, four at a time. -/
def bytesToWords : List Nat → List Nat
  | b0 :: b1 :: b2 :: b3 :: rest =>
    (((b0 * 256 + b1) * 256 + b2) * 256 + b3) :: bytesToWords rest
  | _ => []

/-- The bit length of a message, as eight big-endian bytes. -/
def beBytes8 (n : Nat) : List Nat :=
  [n / 72057594037927936 % 256, n / 281474976710656 % 256,
   n / 1099511627776 % 256, n / 4294967296 % 256,
   n / 16777216 % 256, n / 65536 % 256, n / 256 % 256, n % 256]

/-- SHA-256 padding: a 1 bit, zeros to 56 mod 64, then the 64-bit bit length. -/
def padMessage (bytes : List Nat) : List Nat :=
  let l := bytes.length
  let zeros := (64 - (l + 9) % 64) % 64
  bytes ++ [128] ++ List.replicate zeros 0 ++ beBytes8 (l * 8)

/-- Split a byte list into the given number of 64-byte blocks. -/
def toBlocks : Nat → List Nat → List (List Nat)
  | 0, _ => []
  | Nat.succ k, bs => bs.take 64 :: toBlocks k (bs.drop 64)

/-- SHA-256 digest of a byte list, as the eight final registers. -/
def sha256Digest (bytes : List Nat) : Sha256Regs :=
  let padded := padMessage bytes
  let blocks := (toBlocks (padded.length / 64) padded).map bytesToWords
  blocks.foldl sha256Compress sha256Init

/-- Lowercase hexadecimal digit for a value below 16. -/
def hexDigitChar (n : Nat) : Char :=
  if n < 10 then Char.ofNat (48 + n) else Char.ofNat (87 + n)

/-- Eight lowercase hex characters of one 32-bit word, big-endian. -/
def hexWord (w : Nat) : List Char :=
  [hexDigitChar (w / 268435456 % 16), hexDigitChar (w / 16777216 % 16),
   hexDigitChar (w / 1048576 % 16), hexDigitChar (w / 65536 % 16),
   hexDigitChar (w / 4096 % 16), hexDigitChar (w / 256 % 16),
   hexDigitChar (w / 16 % 16), hexDigitChar (w % 16)]

/-- Hex-encoded SHA-256 of a string, over its character-code byte encoding. -/
def sha256hex (s : String) : String :=
  let r := sha256Digest (s.data.map Char.toNat)
  ⟨hexWord r.a ++ hexWord r.b ++ hexWord r.c ++ hexWord r.d ++
   hexWord r.e ++ hexWord r.f ++ hexWord r.g ++ hexWord r.h⟩

/-- The hex digest always has 64 characters; in particular it is never empty. -/
theorem sha256hex_length (s : String) : (sha256hex s).length = 64 := by
  simp [sha256hex, String.length, hexWord]

theorem sha256hex_ne_empty (s : String) : sha256hex s ≠ "" := by
  intro h
  have := congrArg String.length h
  rw [sha256hex_length] at this
  simp [String.length] at this

-- ===========================================================================
-- identityHelpers.ts
-- ===========================================================================

/-- One entry of the loosely structured identity map from the Adobe SDK. -/
structure IdentityItem where
  id : Option String
deriving DecidableEq

/-- The identity map: an optional object mapping namespaces to item lists. -/
def IdentityMap : Type := Option (List (String × List IdentityItem))

instance : DecidableEq IdentityMap := by
  unfold IdentityMap
  infer_instance

/-- Key lookup in a JS object modelled as an association list. -/
def lookupKey (k : String) (l : List (String × α)) : Option α :=
  (l.find? (fun p => p.fst == k)).map (fun p => p.snd)

/-- Source `extractECID`: safe navigation along `identityMap?.ECID?.[0]?.id`. -/
def extractECID (identityMap : IdentityMap) : Option String :=
  match identityMap with
  | none => none
  | some m =>
    match lookupKey "ECID" m with
    | none => none
    | some items =>
      match items.head? with
      | none => none
      | some item => item.id

/-- Source `hashEmail`: empty in, empty out; otherwise lowercase, trim,
then hex-encoded SHA-256. -/
def hashEmail (email : String) : String :=
  if email == "" then "" else sha256hex (jsTrim (jsToLower email))

/-- Input of `buildTenantIdentities`. -/
structure IdentityParams where
  ecid : Option String
  email : Option String
  phone : Option String
deriving DecidableEq

/-- Output of `buildTenantIdentities`: the sparse tenant identity object.
A field that the source never assigns is `none` (the key is absent). -/
structure TenantIdentities where
  ecid : Option String
  emailAddress : Option String
  hashedEmail : Option String
  mobilePhone : Option String
deriving DecidableEq

/-- Source `buildTenantIdentities`: each field is added only when the
corresponding input is truthy (present and non-empty). -/
def buildTenantIdentities (params : IdentityParams) : TenantIdentities :=
  { ecid := if jsTruthy params.ecid then params.ecid else none
    emailAddress := if jsTruthy params.email then params.email else none
    hashedEmail :=
      match params.email with
      | some e => if e == "" then none else some (hashEmail e)
      | none => none
    mobilePhone := if jsTruthy params.phone then params.phone else none }

/-- Model of `Object.keys(identities).length > 0` on the sparse object. -/
def tenantIdentitiesNonEmpty (t : TenantIdentities) : Bool :=
  t.ecid.isSome || t.emailAddress.isSome || t.hashedEmail.isSome || t.mobilePhone.isSome

-- ===========================================================================
-- adobeConfig.ts: isAdobeMessage
-- ===========================================================================

/-- An inbound FCM message payload: the optional `data` object (keys may map
to any string, including the empty string) and the optional sender field
(`from` in the source, a reserved word in Lean). -/
structure RemoteMessage where
  data : Option (List (String × String))
  fromSender : Option String
deriving DecidableEq

/-- Model of `data.k !== undefined`: the key is present in the object. -/
def hasDataKey (m : RemoteMessage) (k : String) : Bool :=
  (lookupKey k (m.data.getD [])).isSome

/-- Model of `remoteMessage.from?.includes(sub)` collapsed to a boolean. -/
def senderIncludes (m : RemoteMessage) (sub : String) : Bool :=
  match m.fromSender with
  | none => false
  | some f => jsIncludes f sub

/-- Source `isAdobeMessage`: short-circuit OR over the fixed marker set. -/
def isAdobeMessage (remoteMessage : RemoteMessage) : Bool :=
  hasDataKey remoteMessage "adobe_message_id" ||
  hasDataKey remoteMessage "adobe_campaign_id" ||
  hasDataKey remoteMessage "adobe_journey_id" ||
  hasDataKey remoteMessage "adobe_offer_id" ||
  hasDataKey remoteMessage "adb_n_priority" ||
  hasDataKey remoteMessage "adb_n_visibility" ||
  hasDataKey remoteMessage "adb_uri" ||
  senderIncludes remoteMessage "adobe" ||
  senderIncludes remoteMessage "journey" ||
  senderIncludes remoteMessage "campaign"

-- ===========================================================================
-- Clock and identifier formats
-- ===========================================================================

/-- Fixed-width decimal digits used by the ISO8601 rendering below. -/
def pad2 (n : Nat) : List Char :=
  [Nat.digitChar (n / 10 % 10), Nat.digitChar (n % 10)]

def pad3 (n : Nat) : List Char :=
  [Nat.digitChar (n / 100 % 10), Nat.digitChar (n / 10 % 10), Nat.digitChar (n % 10)]

def pad4 (n : Nat) : List Char :=
  [Nat.digitChar (n / 1000 % 10), Nat.digitChar (n / 100 % 10),
   Nat.digitChar (n / 10 % 10), Nat.digitChar (n % 10)]

/-- Gregorian date from a day count since 1970-01-01 (Hinnant's civil
calendar algorithm), returning year, month and day. -/
def civilFromDays (z : Nat) : Nat × Nat × Nat :=
  let zs := z + 719468
  let era := zs / 146097
  let doe := zs % 146097
  let yoe := (doe - doe / 1460 + doe / 36524 - doe / 146096) / 365
  let y := yoe + era * 400
  let doy := doe - (365 * yoe + yoe / 4 - yoe / 100)
  let mp := (5 * doy + 2) / 153
  let d := doy - (153 * mp + 2) / 5 + 1
  let m := if mp < 10 then mp + 3 else mp - 9
  (if m ≤ 2 then y + 1 else y, m, d)

/-- Model of `new Date(ms).toISOString()` for the years 1970 to 9999:
the 24-character form YYYY-MM-DDTHH:MM:SS.mmmZ. -/
def toISOString (ms : Nat) : String :=
  let date := civilFromDays (ms / 86400000)
  ⟨pad4 date.1 ++ [Char.ofNat 45] ++ pad2 date.2.1 ++ [Char.ofNat 45] ++ pad2 date.2.2 ++
   [Char.ofNat 84] ++ pad2 (ms / 3600000 % 24) ++ [Char.ofNat 58] ++
   pad2 (ms / 60000 % 60) ++ [Char.ofNat 58] ++ pad2 (ms / 1000 % 60) ++
   [Char.ofNat 46] ++ pad3 (ms % 1000) ++ [Char.ofNat 90]⟩

/-- Decimal digit character test. -/
def isDigitChar (c : Char) : Bool := 48 ≤ c.toNat && c.toNat ≤ 57

/-- Base-36 digit character test: 0-9 or a-z. -/
def isBase36Char (c : Char) : Bool :=
  (48 ≤ c.toNat && c.toNat ≤ 57) || (97 ≤ c.toNat && c.toNat ≤ 122)

/-- Numeric value of a decimal digit character. -/
def digitVal (c : Char) : Nat := c.toNat - 48

/-- Validity of a timestamp string: the exact 24-character ISO8601 shape
with in-range month, day, hour, minute and second fields. -/
def isValidISO8601 (s : String) : Bool :=
  match s.data with
  | [y1, y2, y3, y4, s1, m1, m2, s2, d1, d2, t, h1, h2, c1, i1, i2, c2, e1, e2, dot, f1, f2, f3, zc] =>
    isDigitChar y1 && isDigitChar y2 && isDigitChar y3 && isDigitChar y4 &&
    s1 == Char.ofNat 45 && s2 == Char.ofNat 45 && t == Char.ofNat 84 &&
    c1 == Char.ofNat 58 && c2 == Char.ofNat 58 && dot == Char.ofNat 46 &&
    zc == Char.ofNat 90 &&
    isDigitChar m1 && isDigitChar m2 && isDigitChar d1 && isDigitChar d2 &&
    isDigitChar h1 && isDigitChar h2 && isDigitChar i1 && isDigitChar i2 &&
    isDigitChar e1 && isDigitChar e2 && isDigitChar f1 && isDigitChar f2 &&
    isDigitChar f3 &&
    1 ≤ digitVal m1 * 10 + digitVal m2 && digitVal m1 * 10 + digitVal m2 ≤ 12 &&
    1 ≤ digitVal d1 * 10 + digitVal d2 && digitVal d1 * 10 + digitVal d2 ≤ 31 &&
    digitVal h1 * 10 + digitVal h2 ≤ 23 &&
    digitVal i1 * 10 + digitVal i2 ≤ 59 &&
    digitVal e1 * 10 + digitVal e2 ≤ 59
  | _ => false

/-- The event id pattern of the spec: one or more decimal digits, a single
dash, then at least six base-36 characters, nothing else. -/
def matchesIdPattern (s : String) : Bool :=
  let cs := s.data
  let pre := cs.takeWhile (fun c => !(c == Char.ofNat 45))
  let rest := cs.dropWhile (fun c => !(c == Char.ofNat 45))
  !pre.isEmpty && pre.all isDigitChar &&
  (match rest with
   | [] => false
   | _ :: suffix => 6 ≤ suffix.length && suffix.all isBase36Char)

/-- The random suffix contract of `Math.random().toString(36).substring(2, 11)`
as documented in the source ("9 char random string"): base-36 characters,
nine of them. -/
def validRandSuffix (s : String) : Prop :=
  s.data.length = 9 ∧ s.data.all isBase36Char = true

instance (s : String) : Decidable (validRandSuffix s) := by
  unfold validRandSuffix
  infer_instance

/-- Source template for event ids in the eight builders that set one. -/
def makeEventId (now : Nat) (rand : String) : String :=
  Nat.repr now ++ "-" ++ rand

-- ===========================================================================
-- xdmEventBuilders.ts: data model
-- ===========================================================================

/-- The stored user profile passed to the builders. -/
structure Profile where
  firstName : Option String
  email : Option String
  phone : Option String
deriving DecidableEq

/-- A raw cart item as the UI screens hand it to the builders. -/
structure CartItem where
  sku : Option String
  name : Option String
  title : Option String
  price : Option Rat
  quantity : Option Nat
deriving DecidableEq

/-- The `product` parameter of the view and add builders. -/
structure ProductParam where
  sku : String
  name : String
  price : Rat
  category : Option String
  quantity : Option Nat
deriving DecidableEq

/-- Tenant block of one product line item (source key `_adobecmteas`). -/
structure LowerFunnel where
  cartID : String
deriving DecidableEq

structure ProductsTenant where
  unitPrice : Rat
deriving DecidableEq

structure LineItemTenant where
  lowerFunnel : Option LowerFunnel
  products : ProductsTenant
deriving DecidableEq

/-- One formatted product line item of an XDM event. -/
structure LineItem where
  SKU : String
  name : String
  quantity : Nat
  priceTotal : Rat
  _adobecmteas : LineItemTenant
deriving DecidableEq

/-- The authentication block of the tenant namespace. Counters that a
builder does not set are absent. -/
structure Authentication where
  loginStatus : String
  signInSuccess : Option Nat
  signInFailure : Option Nat
  loggoffSuccess : Option Nat
deriving DecidableEq

structure VisitorDetails where
  visitorType : String
deriving DecidableEq

structure ChannelInfo where
  channel : String
  participantName : Option String
deriving DecidableEq

/-- The event-level `_adobecmteas` tenant block. -/
structure TenantData where
  identities : Option TenantIdentities
  authentication : Authentication
  visitorDetails : Option VisitorDetails
  channelInfo : ChannelInfo
deriving DecidableEq

/-- Device and screen facts read from the platform, passed as an oracle
(the source reads Dimensions, Platform and Device; Math.round is applied
before the values enter this structure). -/
structure DeviceEnv where
  viewportHeight : Int
  viewportWidth : Int
  isIOS : Bool
  osVersion : Option String
  platformVersion : String
deriving DecidableEq

structure BrowserDetails where
  viewportHeight : Int
  viewportWidth : Int
deriving DecidableEq

/-- The environment object of `buildEnvironment`. -/
structure XdmEnvironment where
  type : String
  browserDetails : BrowserDetails
  operatingSystem : String
  operatingSystemVersion : String
  dcLanguage : String
deriving DecidableEq

/-- Source `buildEnvironment`. -/
def buildEnvironment (dev : DeviceEnv) : XdmEnvironment :=
  { type := "application"
    browserDetails := ⟨dev.viewportHeight, dev.viewportWidth⟩
    operatingSystem := if dev.isIOS then "iOS" else "Android"
    operatingSystemVersion := jsOrStr dev.osVersion dev.platformVersion
    dcLanguage := "en-US" }

/-- A required numeric counter field such as `pageViews.value`. -/
structure ValueCounter where
  value : Nat
deriving DecidableEq

/-- The tenant block under `web.webPageDetails._adobecmteas`. -/
structure WebPageDetailsTenant where
  pageTitle : String
  pagePath : String
  pageType : String
  language : Option String
  previousURL : Option String
  previousPageName : Option String
  previousPagePath : Option String
  siteSection2 : Option String
  siteSection3 : Option String
deriving DecidableEq

structure WebPageDetails where
  pageViews : Option ValueCounter
  siteSection : Option String
  _adobecmteas : Option WebPageDetailsTenant
deriving DecidableEq

structure Engagement where
  transactionType : String
deriving DecidableEq

structure WebInteraction where
  linkClicks : Option ValueCounter
  engagement : Option Engagement
deriving DecidableEq

structure WebData where
  webPageDetails : Option WebPageDetails
  webInteraction : Option WebInteraction
deriving DecidableEq

structure OrderInfo where
  purchaseID : String
  priceTotal : Rat
  currencyCode : String
deriving DecidableEq

/-- The tenant block under `commerce._adobecmteas.lowerFunnel`. -/
structure CommerceLowerFunnel where
  reviewOrderPage : Nat
deriving DecidableEq

structure CommerceData where
  checkouts : Option ValueCounter
  productListRemovals : Option ValueCounter
  productListUpdates : Option ValueCounter
  productViews : Option ValueCounter
  productListAdds : Option ValueCounter
  purchases : Option ValueCounter
  order : Option OrderInfo
  lowerFunnelTenant : Option CommerceLowerFunnel
deriving DecidableEq

/-- Product line items of a built event: every builder but the interaction
one formats them; the interaction builder passes them through raw when no
cart session id is available. -/
inductive EventLineItems where
  | formatted (items : List LineItem)
  | raw (items : List CartItem)
deriving DecidableEq

/-- The XDM payload of a built event. The `_id` field is optional because
not every builder writes one. -/
structure XdmData where
  _id : Option String
  eventType : String
  timestamp : String
  identityMap : IdentityMap
  _adobecmteas : TenantData
  environment : Option XdmEnvironment
  commerce : Option CommerceData
  web : Option WebData
  productListItems : Option EventLineItems
deriving DecidableEq

/-- A built event: either an `ExperienceEvent` instance wrapping `xdmData`,
or (interaction builder only) a plain object with an `xdm` key. -/
inductive BuiltEvent where
  | experienceEvent (xdmData : XdmData)
  | plainXdm (xdm : XdmData)
deriving DecidableEq

/-- The XDM data carried by a built event, whatever the wrapper. -/
def xdmOf : BuiltEvent → XdmData
  | .experienceEvent x => x
  | .plainXdm x => x

-- ===========================================================================
-- xdmEventBuilders.ts: product formatter and builder inputs
-- ===========================================================================

/-- The per-item body of source `formatProductListItems`. -/
def formatProductListItem (cartSessionId : String) (item : CartItem) : LineItem :=
  { SKU := jsOrStr item.sku "unknown"
    name := jsOrStr item.name (jsOrStr item.title "Unnamed Product")
    quantity := jsOrNat item.quantity 1
    priceTotal := jsOrRat item.price 0 * (jsOrNat item.quantity 1 : Rat)
    _adobecmteas :=
      { lowerFunnel := some ⟨cartSessionId⟩
        products := ⟨jsOrRat item.price 0⟩ } }

/-- Source `formatProductListItems`: map the formatter over the items. -/
def formatProductListItems (items : List CartItem) (cartSessionId : String) : List LineItem :=
  items.map (formatProductListItem cartSessionId)

/-- The code shared by every builder's first two lines: extract the ECID and
build the sparse tenant identities from the optional profile. -/
def resolveIdentities (identityMap : IdentityMap) (profile : Option Profile) : TenantIdentities :=
  buildTenantIdentities
    ⟨extractECID identityMap, profile.bind Profile.email, profile.bind Profile.phone⟩

/-- Source `identities && Object.keys(identities).length > 0` guard. -/
def identitiesIfNonEmpty (t : TenantIdentities) : Option TenantIdentities :=
  if tenantIdentitiesNonEmpty t then some t else none

/-- The `loginStatus` expression shared by seven builders. -/
def profileLoginStatus (profile : Option Profile) : String :=
  if jsTruthy (profile.bind Profile.firstName) then "logged-in" else "guest"

/-- The `visitorType` expression shared by five builders. -/
def profileVisitorType (profile : Option Profile) : String :=
  if jsTruthy (profile.bind Profile.firstName) then "Customer" else "Guest"

/-- The `participantName` expression shared by most builders. -/
def participantNameOf (profile : Option Profile) : String :=
  jsToLower (jsOrStr (profile.bind Profile.firstName) "guest user")

structure PageViewEventParams where
  identityMap : IdentityMap
  profile : Option Profile
  pageTitle : String
  pagePath : String
  pageType : String
  previousURL : Option String
  previousPageName : Option String
  previousPagePath : Option String
  siteSection : Option String
  siteSection2 : Option String
  siteSection3 : Option String
  productListItems : Option (List CartItem)
  cartSessionId : Option String
deriving DecidableEq

structure CheckoutEventParams where
  identityMap : IdentityMap
  profile : Option Profile
  cartSessionId : String
  productListItems : List CartItem
deriving DecidableEq

structure ProductRemovalParams where
  identityMap : IdentityMap
  profile : Option Profile
  cartSessionId : String
  productListItems : List CartItem
deriving DecidableEq

structure PurchaseEventParams where
  identityMap : IdentityMap
  profile : Option Profile
  purchaseID : String
  cartSessionId : String
  productListItems : List CartItem
  priceTotal : Rat
  currencyCode : Option String
deriving DecidableEq

/-- The four cart transaction types of the interaction builder. -/
inductive TransactionType where
  | add_to_cart
  | remove_from_cart
  | update_cart_quantity_increase
  | update_cart_quantity_decrease
deriving DecidableEq

def TransactionType.toStr : TransactionType → String
  | .add_to_cart => "add_to_cart"
  | .remove_from_cart => "remove_from_cart"
  | .update_cart_quantity_increase => "update_cart_quantity_increase"
  | .update_cart_quantity_decrease => "update_cart_quantity_decrease"

structure ProductInteractionParams where
  identityMap : IdentityMap
  profile : Option Profile
  transactionType : TransactionType
  productListItems : List CartItem
  cartSessionId : Option String
deriving DecidableEq

structure LoginEventParams where
  identityMap : IdentityMap
  profile : Option Profile
  success : Bool
  method : Option String
deriving DecidableEq

structure LogoutEventParams where
  identityMap : IdentityMap
  profile : Option Profile
deriving DecidableEq

structure ProductViewEventParams where
  identityMap : IdentityMap
  profile : Option Profile
  product : ProductParam
deriving DecidableEq

structure ProductListAddEventParams where
  identityMap : IdentityMap
  profile : Option Profile
  product : ProductParam
  cartSessionId : String
deriving DecidableEq

-- ===========================================================================
-- xdmEventBuilders.ts: the nine builders
-- ===========================================================================

/-- Source `buildPageViewEvent`. The clock, the PRNG suffix and the device
facts are explicit oracle parameters. -/
def buildPageViewEvent (params : PageViewEventParams) (now : Nat) (rand : String)
    (dev : DeviceEnv) : BuiltEvent :=
  let identities := resolveIdentities params.identityMap params.profile
  let tenantData : TenantData :=
    { identities := identitiesIfNonEmpty identities
      authentication := ⟨profileLoginStatus params.profile, none, none, none⟩
      visitorDetails := some ⟨profileVisitorType params.profile⟩
      channelInfo := ⟨"Mobile App", some (participantNameOf params.profile)⟩ }
  .experienceEvent
    { _id := some (makeEventId now rand)
      eventType := "mobileApp.navigation.pageViews"
      timestamp := toISOString now
      identityMap := params.identityMap
      _adobecmteas := tenantData
      environment := some (buildEnvironment dev)
      commerce := none
      web := some
        { webPageDetails := some
            { pageViews := some ⟨1⟩
              siteSection := if jsTruthy params.siteSection then params.siteSection else none
              _adobecmteas := some
                { pageTitle := params.pageTitle
                  pagePath := params.pagePath
                  pageType := params.pageType
                  language := some "en-US"
                  previousURL := if jsTruthy params.previousURL then params.previousURL else none
                  previousPageName :=
                    if jsTruthy params.previousPageName then params.previousPageName else none
                  previousPagePath :=
                    if jsTruthy params.previousPagePath then params.previousPagePath else none
                  siteSection2 := if jsTruthy params.siteSection2 then params.siteSection2 else none
                  siteSection3 := if jsTruthy params.siteSection3 then params.siteSection3 else none } }
          webInteraction := none }
      productListItems :=
        match params.productListItems, params.cartSessionId with
        | some items, some sid =>
          if 0 < items.length ∧ sid ≠ "" then
            some (.formatted (formatProductListItems items sid))
          else none
        | _, _ => none }

/-- Source `buildCheckoutEvent`. Note: the source sets no `visitorDetails`
block on this event. -/
def buildCheckoutEvent (params : CheckoutEventParams) (now : Nat) (rand : String)
    (dev : DeviceEnv) : BuiltEvent :=
  let identities := resolveIdentities params.identityMap params.profile
  let tenantData : TenantData :=
    { identities := identitiesIfNonEmpty identities
      authentication := ⟨profileLoginStatus params.profile, none, none, none⟩
      visitorDetails := none
      channelInfo := ⟨"Mobile App", some (participantNameOf params.profile)⟩ }
  .experienceEvent
    { _id := some (makeEventId now rand)
      eventType := "commerce.checkouts"
      timestamp := toISOString now
      identityMap := params.identityMap
      _adobecmteas := tenantData
      environment := some (buildEnvironment dev)
      commerce := some
        { checkouts := some ⟨1⟩
          productListRemovals := none
          productListUpdates := none
          productViews := none
          productListAdds := none
          purchases := none
          order := none
          lowerFunnelTenant := some ⟨1⟩ }
      web := some
        { webPageDetails := some
            { pageViews := none
              siteSection := none
              _adobecmteas := some
                { pageTitle := "Shopping Cart"
                  pagePath := "/cart"
                  pageType := "cart"
                  language := none
                  previousURL := none
                  previousPageName := none
                  previousPagePath := none
                  siteSection2 := none
                  siteSection3 := none } }
          webInteraction := some
            { linkClicks := none
              engagement := some ⟨"checkout"⟩ } }
      productListItems :=
        some (.formatted (formatProductListItems params.productListItems params.cartSessionId)) }

/-- Source `buildProductRemovalEvent`. -/
def buildProductRemovalEvent (params : ProductRemovalParams) (now : Nat) (rand : String)
    (dev : DeviceEnv) : BuiltEvent :=
  let identities := resolveIdentities params.identityMap params.profile
  let tenantData : TenantData :=
    { identities := identitiesIfNonEmpty identities
      authentication := ⟨profileLoginStatus params.profile, none, none, none⟩
      visitorDetails := some ⟨profileVisitorType params.profile⟩
      channelInfo := ⟨"Mobile App", some (participantNameOf params.profile)⟩ }
  .experienceEvent
    { _id := some (makeEventId now rand)
      eventType := "commerce.productListRemovals"
      timestamp := toISOString now
      identityMap := params.identityMap
      _adobecmteas := tenantData
      environment := some (buildEnvironment dev)
      commerce := some
        { checkouts := none
          productListRemovals := some ⟨1⟩
          productListUpdates := none
          productViews := none
          productListAdds := none
          purchases := none
          order := none
          lowerFunnelTenant := none }
      web := none
      productListItems :=
        some (.formatted (formatProductListItems params.productListItems params.cartSessionId)) }

/-- Source `buildPurchaseEvent`. The currency defaults to USD when omitted. -/
def buildPurchaseEvent (params : PurchaseEventParams) (now : Nat) (rand : String)
    (dev : DeviceEnv) : BuiltEvent :=
  let identities := resolveIdentities params.identityMap params.profile
  let tenantData : TenantData :=
    { identities := identitiesIfNonEmpty identities
      authentication := ⟨profileLoginStatus params.profile, none, none, none⟩
      visitorDetails := some ⟨profileVisitorType params.profile⟩
      channelInfo := ⟨"Mobile App", some (participantNameOf params.profile)⟩ }
  .experienceEvent
    { _id := some (makeEventId now rand)
      eventType := "commerce.purchases"
      timestamp := toISOString now
      identityMap := params.identityMap
      _adobecmteas := tenantData
      environment := some (buildEnvironment dev)
      commerce := some
        { checkouts := none
          productListRemovals := none
          productListUpdates := none
          productViews := none
          productListAdds := none
          purchases := some ⟨1⟩
          order := some ⟨params.purchaseID, params.priceTotal, jsOrStr params.currencyCode "USD"⟩
          lowerFunnelTenant := none }
      web := some
        { webPageDetails := none
          webInteraction := some
            { linkClicks := none
              engagement := some ⟨"purchase"⟩ } }
      productListItems :=
        some (.formatted (formatProductListItems params.productListItems params.cartSessionId)) }

/-- Source `buildProductInteractionEvent`. Note: the source builds a plain
object with an `xdm` key, sets no `_id` field, no environment block, no
visitor details, and no participant name; items are formatted only when a
cart session id is present (truthy). -/
def buildProductInteractionEvent (params : ProductInteractionParams) (now : Nat) : BuiltEvent :=
  let identities := resolveIdentities params.identityMap params.profile
  let tenantData : TenantData :=
    { identities := some identities
      authentication := ⟨profileLoginStatus params.profile, none, none, none⟩
      visitorDetails := none
      channelInfo := ⟨"Mobile App", none⟩ }
  .plainXdm
    { _id := none
      eventType :=
        if params.transactionType = .remove_from_cart then "commerce.productListRemovals"
        else "commerce.productListUpdates"
      timestamp := toISOString now
      identityMap := params.identityMap
      _adobecmteas := tenantData
      environment := none
      commerce :=
        if params.transactionType = .remove_from_cart then
          some
            { checkouts := none
              productListRemovals := some ⟨1⟩
              productListUpdates := none
              productViews := none
              productListAdds := none
              purchases := none
              order := none
              lowerFunnelTenant := none }
        else
          some
            { checkouts := none
              productListRemovals := none
              productListUpdates := some ⟨1⟩
              productViews := none
              productListAdds := none
              purchases := none
              order := none
              lowerFunnelTenant := none }
      web := some
        { webPageDetails := none
          webInteraction := some
            { linkClicks := none
              engagement := some ⟨params.transactionType.toStr⟩ } }
      productListItems :=
        match params.cartSessionId with
        | some sid =>
          if sid ≠ "" then some (.formatted (formatProductListItems params.productListItems sid))
          else some (.raw params.productListItems)
        | none => some (.raw params.productListItems) }

/-- Source `buildLoginEvent`. Both the login status and the visitor type are
keyed off the `success` flag, and the sign-in counters are conditional. -/
def buildLoginEvent (params : LoginEventParams) (now : Nat) (rand : String)
    (dev : DeviceEnv) : BuiltEvent :=
  let identities := resolveIdentities params.identityMap params.profile
  .experienceEvent
    { _id := some (makeEventId now rand)
      eventType := "mobileApp.navigation.clicks"
      timestamp := toISOString now
      identityMap := params.identityMap
      _adobecmteas :=
        { identities := some identities
          authentication :=
            ⟨if params.success then "logged-in" else "login-failed",
             if params.success then some 1 else none,
             if params.success then none else some 1,
             none⟩
          visitorDetails := some ⟨if params.success then "Customer" else "Guest"⟩
          channelInfo := ⟨"Mobile App", some (participantNameOf params.profile)⟩ }
      environment := some (buildEnvironment dev)
      commerce := none
      web := some
        { webPageDetails := some
            { pageViews := none
              siteSection := none
              _adobecmteas := some
                { pageTitle := "Profile"
                  pagePath := "/profile"
                  pageType := "profile"
                  language := none
                  previousURL := none
                  previousPageName := none
                  previousPagePath := none
                  siteSection2 := none
                  siteSection3 := none } }
          webInteraction := some
            { linkClicks := some ⟨1⟩
              engagement := some ⟨if params.success then "login_success" else "login_failure"⟩ } }
      productListItems := none }

/-- Source `buildLogoutEvent`: fixed logged-out status and Guest visitor. -/
def buildLogoutEvent (params : LogoutEventParams) (now : Nat) (rand : String)
    (dev : DeviceEnv) : BuiltEvent :=
  let identities := resolveIdentities params.identityMap params.profile
  .experienceEvent
    { _id := some (makeEventId now rand)
      eventType := "mobileApp.navigation.clicks"
      timestamp := toISOString now
      identityMap := params.identityMap
      _adobecmteas :=
        { identities := some identities
          authentication := ⟨"logged-out", none, none, some 1⟩
          visitorDetails := some ⟨"Guest"⟩
          channelInfo := ⟨"Mobile App", some "guest user"⟩ }
      environment := some (buildEnvironment dev)
      commerce := none
      web := some
        { webPageDetails := some
            { pageViews := none
              siteSection := none
              _adobecmteas := some
                { pageTitle := "Profile"
                  pagePath := "/profile"
                  pageType := "profile"
                  language := none
                  previousURL := none
                  previousPageName := none
                  previousPagePath := none
                  siteSection2 := none
                  siteSection3 := none } }
          webInteraction := some
            { linkClicks := some ⟨1⟩
              engagement := some ⟨"logout"⟩ } }
      productListItems := none }

/-- Source `buildProductViewEvent`: a single unformatted-by-the-shared-helper
line item with quantity one and no lower funnel block. -/
def buildProductViewEvent (params : ProductViewEventParams) (now : Nat) (rand : String)
    (dev : DeviceEnv) : BuiltEvent :=
  let identities := resolveIdentities params.identityMap params.profile
  let tenantData : TenantData :=
    { identities := identitiesIfNonEmpty identities
      authentication := ⟨profileLoginStatus params.profile, none, none, none⟩
      visitorDetails := some ⟨profileVisitorType params.profile⟩
      channelInfo := ⟨"Mobile App", some (participantNameOf params.profile)⟩ }
  .experienceEvent
    { _id := some (makeEventId now rand)
      eventType := "commerce.productViews"
      timestamp := toISOString now
      identityMap := params.identityMap
      _adobecmteas := tenantData
      environment := some (buildEnvironment dev)
      commerce := some
        { checkouts := none
          productListRemovals := none
          productListUpdates := none
          productViews := some ⟨1⟩
          productListAdds := none
          purchases := none
          order := none
          lowerFunnelTenant := none }
      web := none
      productListItems := some (.formatted
        [{ SKU := params.product.sku
           name := params.product.name
           quantity := 1
           priceTotal := params.product.price
           _adobecmteas :=
             { lowerFunnel := none
               products := ⟨params.product.price⟩ } }]) }

/-- Source `buildProductListAddEvent`: a single line item carrying the cart
session id; `priceTotal` is the unit price, not price times quantity. -/
def buildProductListAddEvent (params : ProductListAddEventParams) (now : Nat) (rand : String)
    (dev : DeviceEnv) : BuiltEvent :=
  let identities := resolveIdentities params.identityMap params.profile
  let tenantData : TenantData :=
    { identities := identitiesIfNonEmpty identities
      authentication := ⟨profileLoginStatus params.profile, none, none, none⟩
      visitorDetails := some ⟨profileVisitorType params.profile⟩
      channelInfo := ⟨"Mobile App", some (participantNameOf params.profile)⟩ }
  .experienceEvent
    { _id := some (makeEventId now rand)
      eventType := "commerce.productListAdds"
      timestamp := toISOString now
      identityMap := params.identityMap
      _adobecmteas := tenantData
      environment := some (buildEnvironment dev)
      commerce := some
        { checkouts := none
          productListRemovals := none
          productListUpdates := none
          productViews := none
          productListAdds := some ⟨1⟩
          purchases := none
          order := none
          lowerFunnelTenant := none }
      web := some
        { webPageDetails := none
          webInteraction := some
            { linkClicks := none
              engagement := some ⟨"add_to_cart"⟩ } }
      productListItems := some (.formatted
        [{ SKU := params.product.sku
           name := params.product.name
           quantity := jsOrNat params.product.quantity 1
           priceTotal := params.product.price
           _adobecmteas :=
             { lowerFunnel := some ⟨params.cartSessionId⟩
               products := ⟨params.product.price⟩ } }]) }

-- ===========================================================================
-- hooks/useCartSession.ts
-- ===========================================================================

/-- State of the cart session manager: the AsyncStorage value under the key
`@cart_session_id`, the in-memory React state, and the loading flag. -/
structure CartSessionState where
  stored : Option String
  current : Option String
  isLoading : Bool
deriving DecidableEq

/-- Failure switches of the persistent store for one call: whether the
`getItem` and the `setItem` of that call throw. A failing write does not
change the stored value. -/
structure StorageBehavior where
  getFails : Bool
  setFails : Bool
deriving DecidableEq

/-- Model of `AsyncStorage.getItem` on the cart session key. -/
def asyncGetItem (stored : Option String) (fails : Bool) : Except Unit (Option String) :=
  if fails then .error () else .ok stored

/-- Model of `AsyncStorage.setItem` on the cart session key. -/
def asyncSetItem (fails : Bool) : Except Unit Unit :=
  if fails then .error () else .ok ()

/-- Source `generateCartSessionId`, over the clock and PRNG-suffix oracles. -/
def generateCartSessionId (now : Nat) (rand : String) : String :=
  "cart-" ++ Nat.repr now ++ "-" ++ rand

/-- Source `loadOrCreateCartSession`. The two oracle pairs feed the two
distinct `generateCartSessionId()` call sites (the main path and the catch
fallback). The function is total: every storage error is caught inside, as
in the source, so no error reaches the caller. -/
def loadOrCreateCartSession (s : CartSessionState) (beh : StorageBehavior)
    (g1 g2 : Nat × String) : CartSessionState :=
  match asyncGetItem s.stored beh.getFails with
  | .error _ =>
    { stored := s.stored
      current := some (generateCartSessionId g2.1 g2.2)
      isLoading := false }
  | .ok existingId =>
    if jsTruthy existingId then
      { stored := s.stored, current := existingId, isLoading := false }
    else
      match asyncSetItem beh.setFails with
      | .error _ =>
        { stored := s.stored
          current := some (generateCartSessionId g2.1 g2.2)
          isLoading := false }
      | .ok _ =>
        { stored := some (generateCartSessionId g1.1 g1.2)
          current := some (generateCartSessionId g1.1 g1.2)
          isLoading := false }

/-- Source `resetCartSession`. On a write failure the catch only logs: the
stored and in-memory ids keep their previous values, and no error reaches
the caller (the function is total). -/
def resetCartSession (s : CartSessionState) (beh : StorageBehavior)
    (g : Nat × String) : CartSessionState :=
  match asyncSetItem beh.setFails with
  | .error _ => s
  | .ok _ =>
    { stored := some (generateCartSessionId g.1 g.2)
      current := some (generateCartSessionId g.1 g.2)
      isLoading := s.isLoading }

/-- Format check for cart session ids: `cart-`, decimal digits, a dash, then
base-36 characters. -/
def matchesCartIdFormat (s : String) : Bool :=
  match s.data with
  | c :: a :: r :: t :: dash :: rest =>
    c == Char.ofNat 99 && a == Char.ofNat 97 && r == Char.ofNat 114 &&
    t == Char.ofNat 116 && dash == Char.ofNat 45 &&
    (let pre := rest.takeWhile (fun ch => !(ch == Char.ofNat 45))
     let post := rest.dropWhile (fun ch => !(ch == Char.ofNat 45))
     !pre.isEmpty && pre.all isDigitChar &&
     (match post with
      | [] => false
      | _ :: suffix => !suffix.isEmpty && suffix.all isBase36Char))
  | _ => false

-- ===========================================================================
-- app/(techScreens)/AssuranceView.tsx: startSessionClicked
-- ===========================================================================

/-- Observable outcome of one press of the Start Session button: exactly one
alert, or the SDK call `Assurance.startSession(url)` (the url is also saved
to AsyncStorage on that path). -/
inductive AssuranceOutcome where
  | alertAppIdRequired
  | alertEnterUrl
  | alertInvalidUrl
  | startedSession (url : String)
deriving DecidableEq

/-- Source `startSessionClicked`, as a function of the stored App ID and the
session URL from the text field. -/
def startSessionClicked (appId : Option String) (sessionURL : String) : AssuranceOutcome :=
  if !jsTruthy appId then .alertAppIdRequired
  else if jsTrim sessionURL == "" then .alertEnterUrl
  else
    let trimmedURL := jsTrim sessionURL
    if !(jsIncludes trimmedURL "adb_validation_sessionid=") then .alertInvalidUrl
    else .startedSession trimmedURL

/-- Whether an outcome forwarded a URL to the SDK start-session call. -/
def AssuranceOutcome.isStarted : AssuranceOutcome → Bool
  | .startedSession _ => true
  | _ => false

-- ===========================================================================
-- Helper lemmas
-- ===========================================================================

theorem toNat_ofNat_of_small {n : Nat} (h1 : n < 55296) : (Char.ofNat n).toNat = n := by
  rw [Char.ofNat, dif_pos (Or.inl h1)]
  rfl

theorem isJsWhitespace_jsToLowerChar (c : Char) :
    isJsWhitespace (jsToLowerChar c) = isJsWhitespace c := by
  unfold jsToLowerChar
  split
  case isTrue h =>
    have hv : (Char.ofNat (c.toNat + 32)).toNat = c.toNat + 32 :=
      toNat_ofNat_of_small (by omega)
    have h1 : 65 ≤ c.toNat := h.1
    have hw1 : isJsWhitespace c = false := by
      simp only [isJsWhitespace, Bool.or_eq_false_iff, beq_eq_false_iff_ne, ne_eq]
      omega
    have hw2 : isJsWhitespace (Char.ofNat (c.toNat + 32)) = false := by
      simp only [isJsWhitespace, hv, Bool.or_eq_false_iff, beq_eq_false_iff_ne, ne_eq]
      omega
    rw [hw1, hw2]
  case isFalse h => rfl

theorem trimChars_map_jsToLowerChar (l : List Char) :
    trimChars (l.map jsToLowerChar) = (trimChars l).map jsToLowerChar := by
  have hp : (isJsWhitespace ∘ jsToLowerChar) = isJsWhitespace := by
    funext c
    exact isJsWhitespace_jsToLowerChar c
  unfold trimChars
  rw [List.dropWhile_map, hp, ← List.map_reverse, List.dropWhile_map, hp, ← List.map_reverse]

theorem jsTrim_jsToLower_comm (s : String) :
    jsTrim (jsToLower s) = jsToLower (jsTrim s) := by
  unfold jsTrim jsToLower
  simp only [trimChars_map_jsToLowerChar]

-- ===========================================================================
-- Claim C2: isAdobeMessage is a pure marker predicate
-- ===========================================================================

/-- The fixed data-key markers of the claim. -/
def adobeDataMarkers : List String :=
  ["adobe_message_id", "adobe_campaign_id", "adobe_journey_id", "adobe_offer_id",
   "adb_n_priority", "adb_n_visibility", "adb_uri"]

/-- The fixed sender-substring markers of the claim. -/
def adobeSenderMarkers : List String := ["adobe", "journey", "campaign"]

/-- The claim's wording of a marker match, written independently of the
source definition. -/
def specAdobeMarkerMatches (m : RemoteMessage) : Prop :=
  (∃ k, k ∈ adobeDataMarkers ∧ hasDataKey m k = true) ∨
  (∃ f sub, m.fromSender = some f ∧ sub ∈ adobeSenderMarkers ∧ jsIncludes f sub = true)

theorem senderIncludes_eq_true_iff (m : RemoteMessage) (sub : String) :
    senderIncludes m sub = true ↔ ∃ f, m.fromSender = some f ∧ jsIncludes f sub = true := by
  cases h : m.fromSender <;> simp [senderIncludes, h]

/-- Claim C2: isAdobeMessage returns true exactly when at least one of the
fixed markers matches (a listed data key is present, even with an empty
value, or the sender contains a listed substring), and in particular it is
true on data adb_uri with the empty value and false on data foo bar. -/
theorem C2_isAdobeMessage_marker_predicate :
    (∀ m : RemoteMessage, isAdobeMessage m = true ↔ specAdobeMarkerMatches m)
    ∧ isAdobeMessage ⟨some [("adb_uri", "")], none⟩ = true
    ∧ isAdobeMessage ⟨some [("foo", "bar")], none⟩ = false := by
  refine ⟨fun m => ?_, by decide, by decide⟩
  constructor
  · intro h
    simp only [isAdobeMessage, Bool.or_eq_true] at h
    rcases h with ((((((((h | h) | h) | h) | h) | h) | h) | h) | h) | h
    · exact Or.inl ⟨"adobe_message_id", by simp [adobeDataMarkers], h⟩
    · exact Or.inl ⟨"adobe_campaign_id", by simp [adobeDataMarkers], h⟩
    · exact Or.inl ⟨"adobe_journey_id", by simp [adobeDataMarkers], h⟩
    · exact Or.inl ⟨"adobe_offer_id", by simp [adobeDataMarkers], h⟩
    · exact Or.inl ⟨"adb_n_priority", by simp [adobeDataMarkers], h⟩
    · exact Or.inl ⟨"adb_n_visibility", by simp [adobeDataMarkers], h⟩
    · exact Or.inl ⟨"adb_uri", by simp [adobeDataMarkers], h⟩
    · obtain ⟨f, hf, hi⟩ := (senderIncludes_eq_true_iff m "adobe").mp h
      exact Or.inr ⟨f, "adobe", hf, by simp [adobeSenderMarkers], hi⟩
    · obtain ⟨f, hf, hi⟩ := (senderIncludes_eq_true_iff m "journey").mp h
      exact Or.inr ⟨f, "journey", hf, by simp [adobeSenderMarkers], hi⟩
    · obtain ⟨f, hf, hi⟩ := (senderIncludes_eq_true_iff m "campaign").mp h
      exact Or.inr ⟨f, "campaign", hf, by simp [adobeSenderMarkers], hi⟩
  · intro h
    simp only [isAdobeMessage, Bool.or_eq_true]
    rcases h with ⟨k, hk, hd⟩ | ⟨f, sub, hf, hs, hi⟩
    · simp only [adobeDataMarkers, List.mem_cons, List.mem_singleton] at hk
      rcases hk with rfl | rfl | rfl | rfl | rfl | rfl | rfl | h0
      · tauto
      · tauto
      · tauto
      · tauto
      · tauto
      · tauto
      · tauto
      · simp at h0
    · have hsi : senderIncludes m sub = true :=
        (senderIncludes_eq_true_iff m sub).mpr ⟨f, hf, hi⟩
      simp only [adobeSenderMarkers, List.mem_cons, List.mem_singleton] at hs
      rcases hs with rfl | rfl | rfl | h0
      · tauto
      · tauto
      · tauto
      · simp at h0

-- ===========================================================================
-- Claim C5: hashEmail
-- ===========================================================================

/-- Claim C5: for non-empty input, hashEmail is the hex SHA-256 of the
trimmed, lowercased input; the empty input maps to the empty string; the
function is insensitive to case and surrounding-whitespace variation; in
particular hashing A@B.com and a spaced lowercase variant agree. -/
theorem C5_hashEmail_normalizing_digest :
    (∀ e : String, e ≠ "" → hashEmail e = sha256hex (jsToLower (jsTrim e)))
    ∧ hashEmail "" = ""
    ∧ (∀ e1 e2 : String, e1 ≠ "" → e2 ≠ "" →
        jsTrim (jsToLower e1) = jsTrim (jsToLower e2) → hashEmail e1 = hashEmail e2)
    ∧ hashEmail "A@B.com" = hashEmail " a@b.com " := by
  have hmain : ∀ e : String, e ≠ "" → hashEmail e = sha256hex (jsTrim (jsToLower e)) := by
    intro e he
    rw [hashEmail, if_neg]
    simp [he]
  refine ⟨?_, rfl, ?_, by decide⟩
  · intro e he
    rw [hmain e he, jsTrim_jsToLower_comm]
  · intro e1 e2 h1 h2 heq
    rw [hmain e1 h1, hmain e2 h2, heq]

/-- Witness for C5 at concrete inputs. -/
theorem C5_hashEmail_normalizing_digest_witness :
    hashEmail "A@B.com" = sha256hex (jsToLower (jsTrim "A@B.com"))
    ∧ hashEmail "A@B.com" = hashEmail " a@b.com " :=
  ⟨C5_hashEmail_normalizing_digest.1 "A@B.com" (by decide),
   C5_hashEmail_normalizing_digest.2.2.1 "A@B.com" " a@b.com "
     (by decide) (by decide) (by decide)⟩

-- ===========================================================================
-- Claim C6: buildTenantIdentities is sparse
-- ===========================================================================

/-- Claim C6: each tenant identity field is present exactly when the
corresponding input is provided and non-empty, no field is ever the empty
string, and the empty input yields the object with zero keys. -/
theorem C6_buildTenantIdentities_sparse :
    (∀ ps : IdentityParams,
      (buildTenantIdentities ps).ecid.isSome = jsTruthy ps.ecid ∧
      (buildTenantIdentities ps).emailAddress.isSome = jsTruthy ps.email ∧
      (buildTenantIdentities ps).hashedEmail.isSome = jsTruthy ps.email ∧
      (buildTenantIdentities ps).mobilePhone.isSome = jsTruthy ps.phone ∧
      (buildTenantIdentities ps).ecid ≠ some "" ∧
      (buildTenantIdentities ps).emailAddress ≠ some "" ∧
      (buildTenantIdentities ps).hashedEmail ≠ some "" ∧
      (buildTenantIdentities ps).mobilePhone ≠ some "")
    ∧ buildTenantIdentities ⟨none, none, none⟩ = ⟨none, none, none, none⟩ := by
  refine ⟨fun ps => ?_, rfl⟩
  obtain ⟨ecid, email, phone⟩ := ps
  refine ⟨?_, ?_, ?_, ?_, ?_, ?_, ?_, ?_⟩
  · cases ecid with
    | none => simp [buildTenantIdentities, jsTruthy]
    | some s => by_cases hs : s = "" <;> simp [buildTenantIdentities, jsTruthy, hs]
  · cases email with
    | none => simp [buildTenantIdentities, jsTruthy]
    | some s => by_cases hs : s = "" <;> simp [buildTenantIdentities, jsTruthy, hs]
  · cases email with
    | none => simp [buildTenantIdentities, jsTruthy]
    | some s => by_cases hs : s = "" <;> simp [buildTenantIdentities, jsTruthy, hs]
  · cases phone with
    | none => simp [buildTenantIdentities, jsTruthy]
    | some s => by_cases hs : s = "" <;> simp [buildTenantIdentities, jsTruthy, hs]
  · cases ecid with
    | none => simp [buildTenantIdentities, jsTruthy]
    | some s => by_cases hs : s = "" <;> simp [buildTenantIdentities, jsTruthy, hs]
  · cases email with
    | none => simp [buildTenantIdentities, jsTruthy]
    | some s => by_cases hs : s = "" <;> simp [buildTenantIdentities, jsTruthy, hs]
  · cases email with
    | none => simp [buildTenantIdentities, jsTruthy]
    | some s =>
      by_cases hs : s = ""
      · simp [buildTenantIdentities, jsTruthy, hs]
      · simp [buildTenantIdentities, hashEmail, hs, sha256hex_ne_empty]
  · cases phone with
    | none => simp [buildTenantIdentities, jsTruthy]
    | some s => by_cases hs : s = "" <;> simp [buildTenantIdentities, jsTruthy, hs]

-- ===========================================================================
-- Decimal rendering lemmas for cart session and event ids
-- ===========================================================================

theorem digitChar_isDigit : ∀ d < 10, isDigitChar (Nat.digitChar d) = true := by decide

theorem toDigitsCore_all_digits :
    ∀ (f n : Nat) (acc : List Char), acc.all isDigitChar = true →
      (Nat.toDigitsCore 10 f n acc).all isDigitChar = true := by
  intro f
  induction f with
  | zero => intro n acc h; exact h
  | succ f ih =>
    intro n acc h
    simp only [Nat.toDigitsCore]
    have hd : isDigitChar (Nat.digitChar (n % 10)) = true :=
      digitChar_isDigit (n % 10) (Nat.mod_lt n (by omega))
    split
    · simp [List.all_cons, hd, h]
    · exact ih (n / 10) (Nat.digitChar (n % 10) :: acc) (by simp [List.all_cons, hd, h])

theorem toDigitsCore_length_gt :
    ∀ (f n : Nat) (acc : List Char), acc.length < (Nat.toDigitsCore 10 (f + 1) n acc).length := by
  intro f
  induction f with
  | zero =>
    intro n acc
    simp only [Nat.toDigitsCore]
    split
    · simp
    · simp [Nat.toDigitsCore]
  | succ f ih =>
    intro n acc
    simp only [Nat.toDigitsCore]
    split
    · simp
    · calc acc.length < (Nat.digitChar (n % 10) :: acc).length := by simp
        _ < _ := ih (n / 10) (Nat.digitChar (n % 10) :: acc)

theorem repr_data_all_digits (n : Nat) : (Nat.repr n).data.all isDigitChar = true := by
  show (Nat.toDigits 10 n).asString.data.all isDigitChar = true
  simpa [Nat.toDigits, List.asString] using
    toDigitsCore_all_digits (n + 1) n [] rfl

theorem repr_data_ne_nil (n : Nat) : (Nat.repr n).data ≠ [] := by
  show (Nat.toDigits 10 n).asString.data ≠ []
  have := toDigitsCore_length_gt n n []
  simp only [Nat.toDigits, List.asString]
  intro hcontra
  rw [hcontra] at this
  simp at this

theorem isDigitChar_ne_dash {c : Char} (h : isDigitChar c = true) :
    (!(c == Char.ofNat 45)) = true := by
  simp only [isDigitChar, Bool.and_eq_true, decide_eq_true_eq] at h
  simp only [Bool.not_eq_eq_eq_not, Bool.not_true, beq_eq_false_iff_ne, ne_eq]
  intro hcontra
  have : c.toNat = 45 := by
    rw [hcontra]
    exact toNat_ofNat_of_small (by omega)
  omega

theorem takeWhile_digits_dash (l r : List Char) (hl : l.all isDigitChar = true) :
    (l ++ Char.ofNat 45 :: r).takeWhile (fun c => !(c == Char.ofNat 45)) = l ∧
    (l ++ Char.ofNat 45 :: r).dropWhile (fun c => !(c == Char.ofNat 45)) = Char.ofNat 45 :: r := by
  induction l with
  | nil => simp
  | cons c cs ih =>
    simp only [List.all_cons, Bool.and_eq_true] at hl
    have hc := isDigitChar_ne_dash hl.1
    have hrec := ih hl.2
    simp only [List.cons_append, List.takeWhile_cons, List.dropWhile_cons, hc]
    simp [hrec.1, hrec.2]

theorem string_data_inj {s t : String} (h : s.data = t.data) : s = t := by
  cases s
  cases t
  exact congrArg String.mk h

theorem generateCartSessionId_data (now : Nat) (rand : String) :
    (generateCartSessionId now rand).data =
      Char.ofNat 99 :: Char.ofNat 97 :: Char.ofNat 114 :: Char.ofNat 116 :: Char.ofNat 45 ::
      ((Nat.repr now).data ++ Char.ofNat 45 :: rand.data) := by
  have h5 : ("cart-" : String).data =
      [Char.ofNat 99, Char.ofNat 97, Char.ofNat 114, Char.ofNat 116, Char.ofNat 45] := by decide
  have h1 : ("-" : String).data = [Char.ofNat 45] := by decide
  simp [generateCartSessionId, String.data_append, h5, h1]

theorem matchesCartIdFormat_gen (now : Nat) (rand : String)
    (h36 : rand.data.all isBase36Char = true) (hne : rand.data ≠ []) :
    matchesCartIdFormat (generateCartSessionId now rand) = true := by
  unfold matchesCartIdFormat
  rw [generateCartSessionId_data]
  have htd := takeWhile_digits_dash (Nat.repr now).data rand.data (repr_data_all_digits now)
  simp only [htd.1, htd.2]
  simp [repr_data_ne_nil now, repr_data_all_digits now, hne, h36,
    List.isEmpty_iff]

-- ===========================================================================
-- Claim C7: loading the cart session id is idempotent without a reset
-- ===========================================================================

/-- Claim C7: when a non-empty session id is stored and the store read
succeeds, loading returns exactly that id and stores nothing new, so two
consecutive loads agree; a fresh id is generated and stored only when the
store holds none. -/
theorem C7_load_session_idempotent :
    (∀ (s : CartSessionState) (beh beh2 : StorageBehavior) (g1 g2 g3 g4 : Nat × String)
       (sid : String),
      s.stored = some sid → sid ≠ "" → beh.getFails = false → beh2.getFails = false →
      (loadOrCreateCartSession s beh g1 g2).current = some sid ∧
      (loadOrCreateCartSession s beh g1 g2).stored = some sid ∧
      (loadOrCreateCartSession (loadOrCreateCartSession s beh g1 g2) beh2 g3 g4).current
        = some sid)
    ∧ (∀ (s : CartSessionState) (beh : StorageBehavior) (g1 g2 : Nat × String),
      s.stored = none → beh.getFails = false → beh.setFails = false →
      (loadOrCreateCartSession s beh g1 g2).current = some (generateCartSessionId g1.1 g1.2) ∧
      (loadOrCreateCartSession s beh g1 g2).stored = some (generateCartSessionId g1.1 g1.2)) := by
  constructor
  · intro s beh beh2 g1 g2 g3 g4 sid hstored hne hget hget2
    have h1 : loadOrCreateCartSession s beh g1 g2 =
        { stored := some sid, current := some sid, isLoading := false } := by
      simp [loadOrCreateCartSession, asyncGetItem, hget, hstored, jsTruthy, hne]
    refine ⟨by rw [h1], by rw [h1], ?_⟩
    rw [h1]
    simp [loadOrCreateCartSession, asyncGetItem, hget2, jsTruthy, hne]
  · intro s beh g1 g2 hstored hget hset
    simp [loadOrCreateCartSession, asyncGetItem, asyncSetItem, hget, hset, hstored, jsTruthy]

/-- Witness for C7 at a concrete state and oracles. -/
theorem C7_load_session_idempotent_witness :
    (loadOrCreateCartSession ⟨some "cart-1-abc", none, true⟩ ⟨false, false⟩
        (2, "ddddddddd") (3, "eeeeeeeee")).current = some "cart-1-abc" ∧
    (loadOrCreateCartSession ⟨none, none, true⟩ ⟨false, false⟩
        (2, "ddddddddd") (3, "eeeeeeeee")).stored = some (generateCartSessionId 2 "ddddddddd") :=
  ⟨(C7_load_session_idempotent.1 ⟨some "cart-1-abc", none, true⟩ ⟨false, false⟩ ⟨false, false⟩
      (2, "ddddddddd") (3, "eeeeeeeee") (4, "fffffffff") (5, "ggggggggg") "cart-1-abc"
      rfl (by decide) rfl rfl).1,
   (C7_load_session_idempotent.2 ⟨none, none, true⟩ ⟨false, false⟩
      (2, "ddddddddd") (3, "eeeeeeeee") rfl rfl rfl).2⟩

-- ===========================================================================
-- Claim C8: resetCartSession generates and persists a brand-new id
-- ===========================================================================

/-- Claim C8: on a successful write, reset stores and installs the freshly
generated id cart-timestamp-suffix; the id is in the cart id format whenever
the suffix is base-36, and it differs from any id whose equally long random
suffix differs, which is how the new id differs from the previous one. -/
theorem C8_reset_generates_new_id :
    ∀ (s : CartSessionState) (beh : StorageBehavior) (now : Nat) (rand : String),
      beh.setFails = false →
      (resetCartSession s beh (now, rand)).stored = some (generateCartSessionId now rand) ∧
      (resetCartSession s beh (now, rand)).current = some (generateCartSessionId now rand) ∧
      (rand.data.all isBase36Char = true → rand.data ≠ [] →
        matchesCartIdFormat (generateCartSessionId now rand) = true) ∧
      (∀ (now2 : Nat) (rand2 : String), rand2.length = rand.length → rand2 ≠ rand →
        generateCartSessionId now2 rand2 ≠ generateCartSessionId now rand) := by
  intro s beh now rand hset
  refine ⟨?_, ?_, fun h36 hne => matchesCartIdFormat_gen now rand h36 hne, ?_⟩
  · simp [resetCartSession, asyncSetItem, hset]
  · simp [resetCartSession, asyncSetItem, hset]
  · intro now2 rand2 hlen hneq hcontra
    have hdata := congrArg String.data hcontra
    rw [generateCartSessionId_data, generateCartSessionId_data] at hdata
    have hdata2 : ((Nat.repr now2).data ++ [Char.ofNat 45]) ++ rand2.data =
        ((Nat.repr now).data ++ [Char.ofNat 45]) ++ rand.data := by
      have h0 := hdata
      simp only [List.cons.injEq] at h0
      have := h0.2.2.2.2.2
      simpa [List.append_assoc] using this
    have hlen2 : rand2.data.length = rand.data.length := hlen
    have := List.append_inj_right' hdata2 hlen2
    exact hneq (string_data_inj this)

/-- Witness for C8 at a concrete state and oracle. -/
theorem C8_reset_generates_new_id_witness :
    (resetCartSession ⟨some "cart-1-abc", some "cart-1-abc", false⟩ ⟨false, false⟩
        (1697123456789, "x3j9k2m4p")).stored
      = some (generateCartSessionId 1697123456789 "x3j9k2m4p") ∧
    matchesCartIdFormat (generateCartSessionId 1697123456789 "x3j9k2m4p") = true ∧
    generateCartSessionId 1697123456789 "q7w8e9r1t" ≠ generateCartSessionId 1697123456789 "x3j9k2m4p" := by
  have h := C8_reset_generates_new_id ⟨some "cart-1-abc", some "cart-1-abc", false⟩
    ⟨false, false⟩ 1697123456789 "x3j9k2m4p" rfl
  exact ⟨h.1, h.2.2.1 (by decide) (by decide),
    h.2.2.2 1697123456789 "q7w8e9r1t" (by decide) (by decide)⟩

-- ===========================================================================
-- Claim C10: a failed reset is atomic and silent
-- ===========================================================================

/-- Claim C10: when the write fails during reset, the whole session state is
unchanged (in particular the previously active id stays active, and no
fallback id is installed), while the initial load does install a generated
in-memory fallback id on a read failure; both functions are total, so no
error reaches the caller. -/
theorem C10_reset_failure_atomic :
    ∀ (s : CartSessionState) (beh behL : StorageBehavior) (g g1 g2 : Nat × String),
      beh.setFails = true →
      resetCartSession s beh g = s ∧
      (behL.getFails = true →
        (loadOrCreateCartSession s behL g1 g2).current
          = some (generateCartSessionId g2.1 g2.2) ∧
        (loadOrCreateCartSession s behL g1 g2).stored = s.stored) := by
  intro s beh behL g g1 g2 hset
  constructor
  · simp [resetCartSession, asyncSetItem, hset]
  · intro hget
    constructor
    · simp [loadOrCreateCartSession, asyncGetItem, hget]
    · simp [loadOrCreateCartSession, asyncGetItem, hget]

/-- Witness for C10 at a concrete state and oracles. -/
theorem C10_reset_failure_atomic_witness :
    resetCartSession ⟨some "cart-1-abc", some "cart-1-abc", false⟩ ⟨false, true⟩
        (9, "zzzzzzzzz")
      = ⟨some "cart-1-abc", some "cart-1-abc", false⟩ ∧
    (loadOrCreateCartSession ⟨some "cart-1-abc", some "cart-1-abc", false⟩ ⟨true, false⟩
        (7, "ppppppppp") (8, "qqqqqqqqq")).current
      = some (generateCartSessionId 8 "qqqqqqqqq") := by
  have h := C10_reset_failure_atomic ⟨some "cart-1-abc", some "cart-1-abc", false⟩
    ⟨false, true⟩ ⟨true, false⟩ (9, "zzzzzzzzz") (7, "ppppppppp") (8, "qqqqqqqqq") rfl
  exact ⟨h.1, (h.2 rfl).1⟩

-- ===========================================================================
-- Claim C9: Assurance URL validation
-- ===========================================================================

/-- Counterexample to C9 as stated: with no stored App ID, a URL containing
the required substring is still not forwarded to startSession; the App ID
alert is shown instead, so the substring check is not the only gate. -/
theorem C9_counterexample_appid_gate :
    jsIncludes (jsTrim "https://x.example/p?adb_validation_sessionid=abc123")
        "adb_validation_sessionid=" = true ∧
    startSessionClicked none "https://x.example/p?adb_validation_sessionid=abc123"
      = .alertAppIdRequired ∧
    (startSessionClicked none "https://x.example/p?adb_validation_sessionid=abc123").isStarted
      = false := by
  refine ⟨by decide, by decide, by decide⟩

/-- Claim C9 as amended: once an App ID is configured, the trimmed URL is
forwarded to startSession exactly when it contains the required substring,
and what is forwarded is the trimmed URL; for every URL lacking the
substring, whatever the App ID state, no start-session call is made (the
user gets an alert, each non-started outcome being one of the alerts). -/
theorem C9_substring_validation_given_appid :
    (∀ (appId : Option String) (url : String),
      jsTruthy appId = true →
      ((startSessionClicked appId url).isStarted = true ↔
        jsIncludes (jsTrim url) "adb_validation_sessionid=" = true) ∧
      (∀ u, startSessionClicked appId url = .startedSession u → u = jsTrim url))
    ∧ (∀ (appId : Option String) (url : String),
      jsIncludes (jsTrim url) "adb_validation_sessionid=" = false →
      (startSessionClicked appId url).isStarted = false) := by
  constructor
  · intro appId url happ
    constructor
    · simp only [startSessionClicked, happ, Bool.not_true, Bool.false_eq_true, if_false]
      split
      · rename_i hempty
        have he : jsTrim url = "" := by simpa using hempty
        rw [he]
        constructor
        · intro hco
          simp [AssuranceOutcome.isStarted] at hco
        · intro hco
          simp [jsIncludes] at hco
      · split
        · rename_i hninc
          constructor
          · intro hco
            simp [AssuranceOutcome.isStarted] at hco
          · intro hco
            simp [hco] at hninc
        · rename_i hninc
          simp only [Bool.not_eq_eq_eq_not, Bool.not_true, Bool.not_eq_false] at hninc
          simp [AssuranceOutcome.isStarted, hninc]
    · intro u
      simp only [startSessionClicked, happ, Bool.not_true, Bool.false_eq_true, if_false]
      split
      · intro hco
        cases hco
      · split
        · intro hco
          cases hco
        · intro hco
          cases hco
          rfl
  · intro appId url hninc
    simp only [startSessionClicked]
    split
    · rfl
    · split
      · rfl
      · split
        · rfl
        · rename_i hco
          simp [hninc] at hco

/-- Witness for the amended C9 at concrete inputs. -/
theorem C9_substring_validation_witness :
    (startSessionClicked (some "appid1") " https://x.example/p?adb_validation_sessionid=abc123 ").isStarted
      = true ∧
    (startSessionClicked (some "appid1") "https://x.example/plain").isStarted = false :=
  ⟨((C9_substring_validation_given_appid.1 (some "appid1")
      " https://x.example/p?adb_validation_sessionid=abc123 " (by decide)).1).mpr (by decide),
   C9_substring_validation_given_appid.2 (some "appid1") "https://x.example/plain" (by decide)⟩

-- ===========================================================================
-- Concrete oracles used by the closed theorems below
-- ===========================================================================

/-- A concrete device oracle for closed evaluations. -/
def devOracle : DeviceEnv := ⟨844, 390, true, some "17.0", "17.0"⟩

/-- The profile of the login scenario of the spec. -/
def annProfile : Profile := ⟨some "Ann", some "ann@x.com", none⟩

-- ===========================================================================
-- Claim C4: formatProductListItems and the add-to-cart line item
-- ===========================================================================

/-- Counterexample to C4 as stated: an input item with quantity 0 comes out
with quantity 1, not with its quantity verbatim (the source applies the
falsy-default `item.quantity || 1`). -/
theorem C4_counterexample_quantity_not_verbatim :
    (⟨some "S1", some "Tent", none, some 50, some 0⟩ : CartItem).quantity = some 0 ∧
    (formatProductListItems [⟨some "S1", some "Tent", none, some 50, some 0⟩]
        "cart-1-abc").map LineItem.quantity = [1] ∧
    (1 : Nat) ≠ 0 := by
  refine ⟨rfl, by decide, by decide⟩

/-- Claim C4 as amended: the formatter keeps length and order, tags every
item with the cart session id and with the unit price (the item's price,
defaulting to 0 when absent or 0), and keeps the input quantity whenever it
is present and non-zero, defaulting to 1 otherwise; and the add-to-cart
event of the spec scenario carries the stated line item. -/
theorem C4_format_items_per_index :
    (∀ (items : List CartItem) (sid : String),
      (formatProductListItems items sid).length = items.length ∧
      (∀ i : Nat,
        ((formatProductListItems items sid)[i]?).map
            (fun li => li._adobecmteas.lowerFunnel) =
          (items[i]?).map (fun _ => some ⟨sid⟩) ∧
        ((formatProductListItems items sid)[i]?).map
            (fun li => li._adobecmteas.products.unitPrice) =
          (items[i]?).map (fun it => jsOrRat it.price 0) ∧
        ((formatProductListItems items sid)[i]?).map LineItem.quantity =
          (items[i]?).map (fun it => jsOrNat it.quantity 1)))
    ∧ (xdmOf (buildProductListAddEvent
          ⟨none, some annProfile, ⟨"S1", "Tent", 50, none, none⟩, "cart-1-abc"⟩
          1697123456789 "x3j9k2m4p" devOracle)).productListItems
        = some (.formatted [⟨"S1", "Tent", 1, 50, ⟨some ⟨"cart-1-abc"⟩, ⟨50⟩⟩⟩]) := by
  constructor
  · intro items sid
    refine ⟨by simp [formatProductListItems], fun i => ?_⟩
    refine ⟨?_, ?_, ?_⟩ <;>
    · simp only [formatProductListItems, List.getElem?_map, Option.map_map]
      cases items[i]? <;> simp [formatProductListItem, Function.comp]
  · rfl

-- ===========================================================================
-- Claim C3: loginStatus and visitorType across the builders
-- ===========================================================================

/-- The claim's condition: the supplied profile has a non-empty firstName. -/
def profileHasName (p : Option Profile) : Prop :=
  ∃ pr fn, p = some pr ∧ pr.firstName = some fn ∧ fn ≠ ""

theorem jsTruthy_bind_firstName (p : Option Profile) :
    jsTruthy (p.bind Profile.firstName) = true ↔ profileHasName p := by
  cases p with
  | none => simp [jsTruthy, profileHasName]
  | some pr =>
    cases hfn : pr.firstName with
    | none => simp [jsTruthy, profileHasName, hfn]
    | some fn => simp [jsTruthy, profileHasName, hfn]

/-- Counterexample to C3 as stated: a login event built for a profile with
the non-empty firstName Ann but success false has loginStatus login-failed,
which is neither logged-in (as the claim demands for a named profile) nor
guest; the login builder keys the field off the success flag instead. -/
theorem C3_counterexample_login_event :
    profileHasName (some annProfile) ∧
    (xdmOf (buildLoginEvent ⟨none, some annProfile, false, none⟩
        1697123456789 "x3j9k2m4p" devOracle))._adobecmteas.authentication.loginStatus
      = "login-failed" ∧
    ("login-failed" : String) ≠ "logged-in" ∧ ("login-failed" : String) ≠ "guest" := by
  refine ⟨⟨annProfile, "Ann", rfl, rfl, by decide⟩, rfl, by decide, by decide⟩

/-- Claim C3 as amended: the page-view, product-removal, purchase,
product-view and product-list-add builders set loginStatus to logged-in
exactly when the profile has a non-empty firstName and to guest otherwise,
and likewise visitorType to Customer or Guest; the checkout and
product-interaction builders set the same loginStatus but no visitorType
block at all; the login builder keys both fields off the success flag
(logged-in or login-failed, Customer or Guest); the logout builder always
sets logged-out and Guest; and a page-view with no profile carries guest
and Guest. -/
theorem C3_login_status_visitor_type_amended :
    (∀ p : Option Profile,
      (profileLoginStatus p = "logged-in" ↔ profileHasName p) ∧
      (profileLoginStatus p = "guest" ↔ ¬profileHasName p) ∧
      (profileVisitorType p = "Customer" ↔ profileHasName p) ∧
      (profileVisitorType p = "Guest" ↔ ¬profileHasName p))
    ∧ (∀ (p : PageViewEventParams) (now : Nat) (rand : String) (dev : DeviceEnv),
      (xdmOf (buildPageViewEvent p now rand dev))._adobecmteas.authentication.loginStatus
        = profileLoginStatus p.profile ∧
      (xdmOf (buildPageViewEvent p now rand dev))._adobecmteas.visitorDetails
        = some ⟨profileVisitorType p.profile⟩)
    ∧ (∀ (p : ProductRemovalParams) (now : Nat) (rand : String) (dev : DeviceEnv),
      (xdmOf (buildProductRemovalEvent p now rand dev))._adobecmteas.authentication.loginStatus
        = profileLoginStatus p.profile ∧
      (xdmOf (buildProductRemovalEvent p now rand dev))._adobecmteas.visitorDetails
        = some ⟨profileVisitorType p.profile⟩)
    ∧ (∀ (p : PurchaseEventParams) (now : Nat) (rand : String) (dev : DeviceEnv),
      (xdmOf (buildPurchaseEvent p now rand dev))._adobecmteas.authentication.loginStatus
        = profileLoginStatus p.profile ∧
      (xdmOf (buildPurchaseEvent p now rand dev))._adobecmteas.visitorDetails
        = some ⟨profileVisitorType p.profile⟩)
    ∧ (∀ (p : ProductViewEventParams) (now : Nat) (rand : String) (dev : DeviceEnv),
      (xdmOf (buildProductViewEvent p now rand dev))._adobecmteas.authentication.loginStatus
        = profileLoginStatus p.profile ∧
      (xdmOf (buildProductViewEvent p now rand dev))._adobecmteas.visitorDetails
        = some ⟨profileVisitorType p.profile⟩)
    ∧ (∀ (p : ProductListAddEventParams) (now : Nat) (rand : String) (dev : DeviceEnv),
      (xdmOf (buildProductListAddEvent p now rand dev))._adobecmteas.authentication.loginStatus
        = profileLoginStatus p.profile ∧
      (xdmOf (buildProductListAddEvent p now rand dev))._adobecmteas.visitorDetails
        = some ⟨profileVisitorType p.profile⟩)
    ∧ (∀ (p : CheckoutEventParams) (now : Nat) (rand : String) (dev : DeviceEnv),
      (xdmOf (buildCheckoutEvent p now rand dev))._adobecmteas.authentication.loginStatus
        = profileLoginStatus p.profile ∧
      (xdmOf (buildCheckoutEvent p now rand dev))._adobecmteas.visitorDetails = none)
    ∧ (∀ (p : ProductInteractionParams) (now : Nat),
      (xdmOf (buildProductInteractionEvent p now))._adobecmteas.authentication.loginStatus
        = profileLoginStatus p.profile ∧
      (xdmOf (buildProductInteractionEvent p now))._adobecmteas.visitorDetails = none)
    ∧ (∀ (p : LoginEventParams) (now : Nat) (rand : String) (dev : DeviceEnv),
      (xdmOf (buildLoginEvent p now rand dev))._adobecmteas.authentication.loginStatus
        = (if p.success then "logged-in" else "login-failed") ∧
      (xdmOf (buildLoginEvent p now rand dev))._adobecmteas.visitorDetails
        = some ⟨if p.success then "Customer" else "Guest"⟩)
    ∧ (∀ (p : LogoutEventParams) (now : Nat) (rand : String) (dev : DeviceEnv),
      (xdmOf (buildLogoutEvent p now rand dev))._adobecmteas.authentication.loginStatus
        = "logged-out" ∧
      (xdmOf (buildLogoutEvent p now rand dev))._adobecmteas.visitorDetails = some ⟨"Guest"⟩)
    ∧ (∀ (p : PageViewEventParams) (now : Nat) (rand : String) (dev : DeviceEnv),
      p.profile = none →
      (xdmOf (buildPageViewEvent p now rand dev))._adobecmteas.authentication.loginStatus
        = "guest" ∧
      (xdmOf (buildPageViewEvent p now rand dev))._adobecmteas.visitorDetails
        = some ⟨"Guest"⟩) := by
  refine ⟨?_, fun p now rand dev => ⟨rfl, rfl⟩, fun p now rand dev => ⟨rfl, rfl⟩,
    fun p now rand dev => ⟨rfl, rfl⟩, fun p now rand dev => ⟨rfl, rfl⟩,
    fun p now rand dev => ⟨rfl, rfl⟩, fun p now rand dev => ⟨rfl, rfl⟩,
    fun p now => ⟨rfl, rfl⟩, fun p now rand dev => ⟨rfl, rfl⟩,
    fun p now rand dev => ⟨rfl, rfl⟩, ?_⟩
  · intro p
    have hch := jsTruthy_bind_firstName p
    by_cases h : profileHasName p
    · have ht : jsTruthy (p.bind Profile.firstName) = true := hch.mpr h
      refine ⟨?_, ?_, ?_, ?_⟩ <;> simp [profileLoginStatus, profileVisitorType, ht, h]
    · have ht : jsTruthy (p.bind Profile.firstName) = false := by
        rcases hb : jsTruthy (p.bind Profile.firstName) with _ | _
        · rfl
        · exact absurd (hch.mp hb) h
      refine ⟨?_, ?_, ?_, ?_⟩ <;> simp [profileLoginStatus, profileVisitorType, ht, h]
  · intro p now rand dev hnone
    constructor
    · show profileLoginStatus p.profile = "guest"
      simp [profileLoginStatus, hnone, jsTruthy]
    · show ((some ⟨profileVisitorType p.profile⟩ : Option VisitorDetails) = some ⟨"Guest"⟩)
      simp [profileVisitorType, hnone, jsTruthy]

/-- Witness for the amended C3: a cart page view with no profile. -/
theorem C3_login_status_visitor_type_witness :
    (xdmOf (buildPageViewEvent
        ⟨none, none, "Shopping Cart", "/cart", "cart", none, none, none, none, none, none,
         none, none⟩ 1697123456789 "x3j9k2m4p" devOracle))._adobecmteas.authentication.loginStatus
      = "guest" ∧
    (xdmOf (buildPageViewEvent
        ⟨none, none, "Shopping Cart", "/cart", "cart", none, none, none, none, none, none,
         none, none⟩ 1697123456789 "x3j9k2m4p" devOracle))._adobecmteas.visitorDetails
      = some ⟨"Guest"⟩ :=
  C3_login_status_visitor_type_amended.2.2.2.2.2.2.2.2.2.2
    ⟨none, none, "Shopping Cart", "/cart", "cart", none, none, none, none, none, none,
     none, none⟩ 1697123456789 "x3j9k2m4p" devOracle rfl

-- ===========================================================================
-- Claim C1: event ids and timestamps
-- ===========================================================================

/-- General positive fact behind C1 for the eight builders that do set an
id: the generated id epoch-millis dash suffix matches the spec pattern
whenever the random suffix is non-empty base-36 of length at least six
(the generator's contract produces nine such characters). -/
theorem makeEventId_matches_pattern (now : Nat) (rand : String)
    (hlen : 6 ≤ rand.data.length) (h36 : rand.data.all isBase36Char = true) :
    matchesIdPattern (makeEventId now rand) = true := by
  have hdata : (makeEventId now rand).data =
      (Nat.repr now).data ++ Char.ofNat 45 :: rand.data := by
    have h1 : ("-" : String).data = [Char.ofNat 45] := by decide
    simp [makeEventId, String.data_append, h1]
  unfold matchesIdPattern
  rw [hdata]
  have htd := takeWhile_digits_dash (Nat.repr now).data rand.data (repr_data_all_digits now)
  simp only [htd.1, htd.2]
  simp [repr_data_ne_nil now, repr_data_all_digits now, hlen, h36, List.isEmpty_iff]
  exact hlen

/-- Claim C1 evaluated at the failing input: the product interaction builder
emits XDM data with no `_id` field at all (against the schema requirement
the sibling builders document), while at the same clock and PRNG oracle the
page-view builder emits a pattern-conforming id; both builders do emit a
well-formed ISO8601 timestamp. -/
theorem C1_interaction_event_missing_id :
    (xdmOf (buildProductInteractionEvent ⟨none, none, .add_to_cart, [], none⟩
        1697123456789))._id = none ∧
    isValidISO8601 (xdmOf (buildProductInteractionEvent ⟨none, none, .add_to_cart, [], none⟩
        1697123456789)).timestamp = true ∧
    (xdmOf (buildPageViewEvent
        ⟨none, none, "Shopping Cart", "/cart", "cart", none, none, none, none, none, none,
         none, none⟩ 1697123456789 "x3j9k2m4p" devOracle))._id
      = some "1697123456789-x3j9k2m4p" ∧
    matchesIdPattern "1697123456789-x3j9k2m4p" = true ∧
    isValidISO8601 (xdmOf (buildPageViewEvent
        ⟨none, none, "Shopping Cart", "/cart", "cart", none, none, none, none, none, none,
         none, none⟩ 1697123456789 "x3j9k2m4p" devOracle)).timestamp = true := by
  refine ⟨rfl, by decide, by decide, by decide, by decide⟩

/-- Witness for C2 at the concrete empty-valued adb_uri message. -/
theorem C2_isAdobeMessage_marker_predicate_witness :
    specAdobeMarkerMatches ⟨some [("adb_uri", "")], none⟩ :=
  (C2_isAdobeMessage_marker_predicate.1 ⟨some [("adb_uri", "")], none⟩).mp (by decide)

/-- Witness for C4 at a concrete one-item list. -/
theorem C4_format_items_per_index_witness :
    (formatProductListItems [⟨some "S1", some "Tent", none, some 50, some 2⟩]
        "cart-1-abc").length
      = ([⟨some "S1", some "Tent", none, some 50, some 2⟩] : List CartItem).length :=
  (C4_format_items_per_index.1 [⟨some "S1", some "Tent", none, some 50, some 2⟩]
    "cart-1-abc").1

/-- Witness for C6 at concrete identity parameters. -/
theorem C6_buildTenantIdentities_sparse_witness :
    (buildTenantIdentities ⟨some "ecid1", some "ann@x.com", none⟩).ecid.isSome
      = jsTruthy (some "ecid1") ∧
    (buildTenantIdentities ⟨some "ecid1", some "ann@x.com", none⟩).hashedEmail ≠ some "" :=
  ⟨(C6_buildTenantIdentities_sparse.1 ⟨some "ecid1", some "ann@x.com", none⟩).1,
   (C6_buildTenantIdentities_sparse.1 ⟨some "ecid1", some "ann@x.com", none⟩).2.2.2.2.2.2.1⟩

/-- Witness for C1-adjacent id generation at the concrete oracle. -/
theorem makeEventId_matches_pattern_witness :
    matchesIdPattern (makeEventId 1697123456789 "x3j9k2m4p") = true :=
  makeEventId_matches_pattern 1697123456789 "x3j9k2m4p" (by decide) (by decide)
